import Mathlib

/-!
Verification development for the Rezoomex MCP server (Node.js).

The JavaScript sources are shallowly embedded: each `Map` becomes an
association list with JavaScript `Map.set` / `Map.get` / `Map.delete`
semantics (update-in-place-or-append, first-match lookup), network calls
(`validateSession`, `verifyToken`, the upstream login endpoint) become
explicit oracle parameters, and `Date.now()` / `setTimeout` become an
explicit `Nat` time parameter.  JavaScript values that matter to the
claims (strings, integers, `null`, `undefined`) are embedded as `JsValue`.
-/

/-- JavaScript values, as far as the tool-argument validation and the
session store need them.  `jundefined` is JavaScript `undefined`. -/
inductive JsValue where
  | jundefined
  | jnull
  | jstr (s : String)
  | jint (n : Int)
  | jbool (b : Bool)
deriving DecidableEq, Repr

/-- JavaScript truthiness for the embedded values: `undefined`, `null`,
the empty string, `0` and `false` are falsy. -/
def jsTruthy : JsValue → Bool
  | .jundefined => false
  | .jnull => false
  | .jstr s => s ≠ ""
  | .jint n => n ≠ 0
  | .jbool b => b

/-- Property access `v.f` on an embedded value.  A string has no
`access_token` (or other data) property, so the access yields
`undefined`; the handlers only perform the access after a truthiness
check, so the object is never `undefined`/`null` at the access site. -/
def getProp (v : JsValue) (_field : String) : JsValue :=
  match v with
  | _ => .jundefined

/-- `Map.prototype.get`: first entry with the key. -/
def mapGet {α : Type} : List (String × α) → String → Option α
  | [], _ => none
  | (k1, v) :: rest, k => if k1 = k then some v else mapGet rest k

/-- `Map.prototype.set`: update the existing entry in place, otherwise
append a new entry (JavaScript `Map` preserves insertion order). -/
def mapSet {α : Type} : List (String × α) → String → α → List (String × α)
  | [], k, v => [(k, v)]
  | (k1, v1) :: rest, k, v =>
      if k1 = k then (k, v) :: rest else (k1, v1) :: mapSet rest k v

/-- `Map.prototype.delete`: remove the entry with the key. -/
def mapDelete {α : Type} : List (String × α) → String → List (String × α)
  | [], _ => []
  | (k1, v1) :: rest, k =>
      if k1 = k then mapDelete rest k else (k1, v1) :: mapDelete rest k

/-! ## src/lib/rezoomex-client.js (interface only)

`new RezoomexApiClient(bearerToken, logger)` stores the bearer token; its
network behaviour (`validateSession`, the data calls) is an external
collaborator and is represented by oracle parameters below. -/

/-- The upstream API handle: `RezoomexApiClient` as far as the session
registry observes it (the bearer credential it was built from). -/
structure RezoomexApiClient where
  bearerToken : String
deriving DecidableEq, Repr

/-- Outcome of the network call `client.validateSession()`: it resolves
to a boolean or the promise rejects (`err`, caught by the callers). -/
inductive ValidationResult where
  | ok (isValid : Bool)
  | err
deriving DecidableEq, Repr

/-! ## src/lib/auth-manager.js -/

/-- The `AuthManager`'s two session maps (`this.sessions` holding
`createdAt` timestamps and `this.clients` holding the upstream handles);
`tempTokens` is not involved in the claims under proof. -/
structure AMState where
  sessions : List (String × Nat)
  clients : List (String × RezoomexApiClient)
deriving DecidableEq, Repr

/-- `SESSION_TIMEOUT` default of auth-manager.js: 24 hours in ms. -/
def sessionTimeoutDefault : Nat := 86400000

/-- `AuthManager.authenticateWithToken(bearerToken, sessionId)`:
constructs a client from the token, runs `validateSession` (outcome
`vres` supplied by the network oracle), and on success stores the client
and a fresh `createdAt` under `sessionId`; on a false result or a thrown
error it returns `null` and stores nothing. -/
def authenticateWithToken (vres : ValidationResult) (bearerToken : String)
    (sessionId : String) (now : Nat) (st : AMState) :
    Option RezoomexApiClient × AMState :=
  let client : RezoomexApiClient := ⟨bearerToken⟩
  match vres with
  | .ok true =>
      (some client,
        { sessions := mapSet st.sessions sessionId now,
          clients := mapSet st.clients sessionId client })
  | .ok false => (none, st)
  | .err => (none, st)

/-- `AuthManager.getClient(sessionId)`: `null` when no id is supplied
(`!sessionId`, which also catches the empty string) or when no client is
stored; otherwise returns the stored client and refreshes the session's
`createdAt` to `Date.now()`.  No expiry check is performed here. -/
def getClient (now : Nat) (sessionId : Option String) (st : AMState) :
    Option RezoomexApiClient × AMState :=
  match sessionId with
  | none => (none, st)
  | some sid =>
      if sid = "" then (none, st)
      else
        match mapGet st.clients sid with
        | none => (none, st)
        | some client =>
            (some client, { st with sessions := mapSet st.sessions sid now })

/-- `AuthManager.clearSession(sessionId)`: delete from `clients` if
present, then from `sessions` if present. -/
def clearSession (sessionId : String) (st : AMState) : AMState :=
  let st1 :=
    if (mapGet st.clients sessionId).isSome then
      { st with clients := mapDelete st.clients sessionId }
    else st
  if (mapGet st1.sessions sessionId).isSome then
    { st1 with sessions := mapDelete st1.sessions sessionId }
  else st1

/-- `AuthManager.cleanupExpiredSessions()`: for every `sessions` entry
with `now - createdAt > sessionTimeout`, delete the entry from both
maps.  (`now - createdAt` is truncated subtraction, matching the
JavaScript comparison for `createdAt ≤ now`.) -/
def cleanupExpiredSessions (now timeout : Nat) (st : AMState) : AMState :=
  st.sessions.foldl
    (fun acc p =>
      if now - p.2 > timeout then
        { sessions := mapDelete acc.sessions p.1,
          clients := mapDelete acc.clients p.1 }
      else acc)
    st

/-- `AuthManager.validateAllSessions()`: snapshot the `clients` entries;
for each one whose `validateSession` (oracle `vres`) returns false or
throws, `clearSession` it. -/
def validateAllSessions (vres : String → ValidationResult) (st : AMState) :
    AMState :=
  st.clients.foldl
    (fun acc p =>
      match vres p.1 with
      | .ok true => acc
      | .ok false => clearSession p.1 acc
      | .err => clearSession p.1 acc)
    st

/-- `AuthManager.cleanup()`: clear both session maps. -/
def amCleanup (_st : AMState) : AMState :=
  { sessions := [], clients := [] }

/-- The key sets of the `AuthManager`'s two maps agree: a `sessions`
entry exists exactly when a `clients` entry exists under the same
sessionId. -/
def amInv (st : AMState) : Prop :=
  ∀ k, (mapGet st.sessions k).isSome ↔ (mapGet st.clients k).isSome


/-! ## src/unnamed/part_002 — OAuth2-style server (`server-oauth`)

`sessionStore` is one `Map` holding heterogeneous entries under prefixed
keys (`auth_code:`, `auth_session:`, `callback_session:`); the
authorization-code entries store the bearer token **string** directly
(`sessionStore.set('auth_code:' + authCode, tokenData.access_token)`).

`app.post("/token")` is registered **twice** in this file.  Express
dispatches a request to route handlers in registration order and a
handler that sends a response without calling `next()` terminates the
chain; both registered handlers always send a response, so every
`POST /token` request is served by the **first** registration
(lines 670–737) and the second registration (lines 801–887) is
unreachable.  Both are embedded below. -/

/-- `SESSION_TIMEOUT` default of part_002: 5 minutes in ms; this is the
TTL of `auth_code:` / `auth_session:` / `callback_session:` entries,
enforced by a `setTimeout` that deletes the entry. -/
def oauthSessionTimeout : Nat := 300000

/-- The `auth_code:` storage step of `app.post("/authenticate")`
(part_002 lines 556–560): on verifier success the handler mints a code
and stores the bearer token string under `auth_code:` ++ code. -/
def authenticateStoreCode (authCode accessToken : String)
    (store : List (String × JsValue)) : List (String × JsValue) :=
  mapSet store ("auth_code:" ++ authCode) (.jstr accessToken)

/-- Result of a `POST /token` exchange, as the wire shapes it. -/
inductive TokenResult where
  | unsupportedGrantType
  | invalidRequest
  | invalidGrant
  | success (accessToken : JsValue)
deriving DecidableEq, Repr

/-- The **first** registered `app.post("/token")` handler (part_002
lines 670–737), the one Express actually serves, with Auth0 not
configured (`auth0Provider` is `null` unless all three `AUTH0_*`
variables are set).  It checks the grant type, requires a truthy `code`,
looks the code up, deletes it, and answers with
`access_token: authCode.access_token` — a property access on the stored
**string**.  It never calls `verifyToken`. -/
def tokenHandlerFirst (grantType : String) (code : Option String)
    (store : List (String × JsValue)) :
    TokenResult × List (String × JsValue) :=
  if grantType ≠ "authorization_code" then (.unsupportedGrantType, store)
  else
    match code with
    | none => (.invalidRequest, store)
    | some c =>
        if c = "" then (.invalidRequest, store)
        else
          match mapGet store ("auth_code:" ++ c) with
          | none => (.invalidGrant, store)
          | some authCode =>
              if jsTruthy authCode then
                (.success (getProp authCode "access_token"),
                  mapDelete store ("auth_code:" ++ c))
              else (.invalidGrant, store)

/-- The **second** registered `app.post("/token")` handler (part_002
lines 801–887), unreachable behind the first registration.  It
additionally requires `client_id`, re-validates the stored token with
`rezoomexAuthProvider.verifyToken` (oracle `verify`; that method catches
its own errors and returns a boolean), deletes the code, and returns the
stored token itself as `access_token`. -/
def tokenHandlerSecond (grantType : String) (code clientId : Option String)
    (verify : JsValue → Bool) (store : List (String × JsValue)) :
    TokenResult × List (String × JsValue) :=
  if grantType ≠ "authorization_code" then (.unsupportedGrantType, store)
  else
    match code, clientId with
    | none, _ => (.invalidRequest, store)
    | _, none => (.invalidRequest, store)
    | some c, some cid =>
        if c = "" ∨ cid = "" then (.invalidRequest, store)
        else
          match mapGet store ("auth_code:" ++ c) with
          | none => (.invalidGrant, store)
          | some storedToken =>
              if ¬ jsTruthy storedToken then (.invalidGrant, store)
              else if ¬ verify storedToken then
                (.invalidGrant, mapDelete store ("auth_code:" ++ c))
              else
                (.success storedToken, mapDelete store ("auth_code:" ++ c))

/-- The `sessionStore` contents visible at time `t` for a single
`auth_code:` entry minted at time `t0`: the storing handler schedules
`setTimeout(() => sessionStore.delete(...), SESSION_TIMEOUT)`, so the
entry exists from `t0` until the timer fires at `t0 + SESSION_TIMEOUT`
and is gone afterwards. -/
def authCodeStoreAt (authCode accessToken : String) (t0 t : Nat) :
    List (String × JsValue) :=
  if t0 ≤ t ∧ t < t0 + oauthSessionTimeout then
    authenticateStoreCode authCode accessToken []
  else []

/-! ## src/unnamed/part_002 — `POST /v1/sse` session key derivation -/

/-- The per-request session key of the `tools/call` branch of
`app.post('/v1/sse')` (part_002 line 1071):
`session_$userId_$now_$rand`, with `'anon'` when the verified
identity carries no user id.  `rand` stands for the
`Math.random().toString(36).substring(2, 8)` nonce. -/
def userSpecificSessionId (userId : Option String) (now : Nat)
    (rand : String) : String :=
  "session_" ++ userId.getD "anon" ++ "_" ++ toString now ++ "_" ++ rand

/-! ## src/unnamed/part_000 — plain HTTP server, `POST /sse` dispatcher -/

/-- The session key used by the `authenticate` tool branch of
`app.post('/sse')` (part_000 line 813): the literal `'mcp-default'`,
for every user. -/
def sseMcpSessionId : String := "mcp-default"

/-- The `authenticate` branch of the `tools/call` case of
`app.post('/sse')` (part_000 lines 792–845): on upstream login success
(`loginToken` is the `access_token` the upstream returned, `none` when
the login failed), the handler stores the resulting client under the
fixed key `'mcp-default'` via `authManager.authenticateWithToken`.
Returns the session id the success message announces. -/
def ssePostAuthenticate (loginToken : Option String)
    (vres : ValidationResult) (now : Nat) (st : AMState) :
    Option String × AMState :=
  match loginToken with
  | none => (none, st)
  | some tok =>
      match authenticateWithToken vres tok sseMcpSessionId now st with
      | (none, st1) => (none, st1)
      | (some _, st1) => (some sseMcpSessionId, st1)

/-- Session resolution of the non-`authenticate` `tools/call` case of
`app.post('/sse')` (part_000 line 789): the `x-session-id` header if
present, else `'mcp-default'`. -/
def ssePostToolsCallSessionId (headerSessionId : Option String) : String :=
  match headerSessionId with
  | some h => if h = "" then "mcp-default" else h
  | none => "mcp-default"

/-! ## src/lib/mcp-tools.js — Tool Catalog and dispatcher

The catalog entries carry their `inputSchema` data; the human-readable
`description` strings are pure data never inspected by the logic and are
omitted.  The validator checks exactly what the source checks: `type`
being `"string"` or `"integer"`, and `minimum` / `maximum` (the catalog
declares `minimum: 1` on the story-number fields and no `maximum`). -/

/-- A schema field's `type` keyword: `"string"` or `"integer"`. -/
inductive FieldType where
  | string
  | integer
deriving DecidableEq, Repr

/-- One property of a tool's `inputSchema`. -/
structure FieldSchema where
  ftype : FieldType
  minimum : Option Int
  maximum : Option Int
deriving DecidableEq, Repr

/-- A tool's `inputSchema`: its `properties` object (in source order)
and its `required` list. -/
structure InputSchema where
  properties : List (String × FieldSchema)
  required : List String
deriving DecidableEq, Repr

/-- One `ToolDescriptor` of the catalog. -/
structure ToolDescriptor where
  name : String
  inputSchema : InputSchema
deriving DecidableEq, Repr

/-- A plain `type: "string"` field. -/
def fstr : FieldSchema := ⟨.string, none, none⟩

/-- A `type: "integer", minimum: 1` field. -/
def fintMin1 : FieldSchema := ⟨.integer, some 1, none⟩

/-- The `toolDefinitions` array of `MCPTools.initializeTools`, in source
order. -/
def toolDefinitions : List ToolDescriptor := [
  ⟨"authenticate",
    ⟨[("email", fstr), ("password", fstr)], ["email", "password"]⟩⟩,
  ⟨"list_user_stories",
    ⟨[("project_id", fstr), ("persona_id", fstr)],
      ["project_id", "persona_id"]⟩⟩,
  ⟨"get_story_range",
    ⟨[("start_number", fintMin1), ("end_number", fintMin1),
      ("project_id", fstr), ("persona_id", fstr)],
      ["start_number", "end_number", "project_id", "persona_id"]⟩⟩,
  ⟨"get_single_story_details",
    ⟨[("story_number", fintMin1), ("story_id", fstr),
      ("project_id", fstr), ("persona_id", fstr)],
      ["project_id", "persona_id"]⟩⟩,
  ⟨"get_project_overview", ⟨[("project_id", fstr)], ["project_id"]⟩⟩,
  ⟨"get_persona_profile",
    ⟨[("project_id", fstr), ("persona_id", fstr)],
      ["project_id", "persona_id"]⟩⟩,
  ⟨"get_user_journey",
    ⟨[("project_id", fstr), ("persona_id", fstr)],
      ["project_id", "persona_id"]⟩⟩,
  ⟨"get_jobs_to_be_done",
    ⟨[("project_id", fstr), ("persona_id", fstr)],
      ["project_id", "persona_id"]⟩⟩,
  ⟨"get_user_info", ⟨[], []⟩⟩,
  ⟨"get_project_environment", ⟨[("project_id", fstr)], ["project_id"]⟩⟩,
  ⟨"check_nda_status", ⟨[], []⟩⟩,
  ⟨"get_product_info", ⟨[("project_id", fstr)], ["project_id"]⟩⟩,
  ⟨"list_projects", ⟨[], []⟩⟩,
  ⟨"find_project_by_name", ⟨[("project_name", fstr)], ["project_name"]⟩⟩,
  ⟨"find_persona_by_name",
    ⟨[("project_id", fstr), ("persona_name", fstr)],
      ["project_id", "persona_name"]⟩⟩,
  ⟨"get_user_stories_by_name",
    ⟨[("project_name", fstr), ("persona_name", fstr)],
      ["project_name", "persona_name"]⟩⟩,
  ⟨"get_persona_by_name",
    ⟨[("project_name", fstr), ("persona_name", fstr)],
      ["project_name", "persona_name"]⟩⟩,
  ⟨"get_project_by_name", ⟨[("project_name", fstr)], ["project_name"]⟩⟩,
  ⟨"mcp0_getUserInfo", ⟨[], []⟩⟩,
  ⟨"mcp0_fetchPersona",
    ⟨[("projectId", fstr), ("personaId", fstr)],
      ["projectId", "personaId"]⟩⟩,
  ⟨"mcp0_fetchElevatorPitch", ⟨[("projectId", fstr)], ["projectId"]⟩⟩,
  ⟨"mcp0_fetchVisionStatement", ⟨[("projectId", fstr)], ["projectId"]⟩⟩,
  ⟨"mcp0_fetchProductInfo", ⟨[("projectId", fstr)], ["projectId"]⟩⟩,
  ⟨"mcp0_fetchProjectEnvironment", ⟨[("projectId", fstr)], ["projectId"]⟩⟩,
  ⟨"mcp0_checkNdaStatus", ⟨[], []⟩⟩]

/-- `this.tools`: the catalog `Map`, built by `forEach`-inserting each
definition under its name. -/
def toolsMap : List (String × ToolDescriptor) :=
  toolDefinitions.foldl (fun m t => mapSet m t.name t) []

/-- `MCPTools.getToolDescriptorinitions()`: `Array.from(this.tools.values())`,
i.e. the values in insertion order. -/
def getToolDescriptorinitions : List ToolDescriptor :=
  toolsMap.map (fun p => p.2)

/-- `MCPTools.hasTools(name)`. -/
def hasTools (name : String) : Bool :=
  (mapGet toolsMap name).isSome

/-- `Number.isInteger(value)`. -/
def isIntegerVal : JsValue → Bool
  | .jint _ => true
  | _ => false

/-- `typeof value === 'string'`. -/
def isStringVal : JsValue → Bool
  | .jstr _ => true
  | _ => false

/-- The JavaScript comparison `value < bound` for a numeric `bound`:
numbers compare numerically, `null` and booleans coerce to `0`/`1`,
`undefined` is NaN (every comparison false).  A string would coerce to a
number (usually NaN); every schema field carrying a bound is
integer-typed, so a string value has already produced a type error and
the comparison's outcome cannot change whether validation throws. -/
def jsLtNum (v : JsValue) (bound : Int) : Bool :=
  match v with
  | .jint n => n < bound
  | .jbool b => (if b then (1 : Int) else 0) < bound
  | .jnull => (0 : Int) < bound
  | .jstr _ => false
  | .jundefined => false

/-- The JavaScript comparison `value > bound`; see `jsLtNum`. -/
def jsGtNum (v : JsValue) (bound : Int) : Bool :=
  match v with
  | .jint n => n > bound
  | .jbool b => (if b then (1 : Int) else 0) > bound
  | .jnull => (0 : Int) > bound
  | .jstr _ => false
  | .jundefined => false

/-- The `required` loop of `MCPTools.validateToolInput`: a field is
missing when it is absent from the input object or bound to `null` or
`undefined`. -/
def requiredFieldErrors (required : List String)
    (input : List (String × JsValue)) : List String :=
  required.filterMap (fun f =>
    match mapGet input f with
    | none => some ("Missing required field: " ++ f)
    | some .jnull => some ("Missing required field: " ++ f)
    | some .jundefined => some ("Missing required field: " ++ f)
    | some _ => none)

/-- The per-property checks of `MCPTools.validateToolInput`, for one
property that is present in the input: the `integer`/`string` type
check (an `else if` chain in the source), then `minimum`, then
`maximum`. -/
def propertyFieldErrors (fieldName : String) (fs : FieldSchema)
    (value : JsValue) : List String :=
  let typeErrs :=
    if fs.ftype = .integer ∧ ¬ isIntegerVal value then
      ["Field " ++ fieldName ++ " must be an integer"]
    else if fs.ftype = .string ∧ ¬ isStringVal value then
      ["Field " ++ fieldName ++ " must be a string"]
    else []
  let minErrs :=
    match fs.minimum with
    | some m =>
        if jsLtNum value m then
          ["Field " ++ fieldName ++ " must be at least " ++ toString m]
        else []
    | none => []
  let maxErrs :=
    match fs.maximum with
    | some m =>
        if jsGtNum value m then
          ["Field " ++ fieldName ++ " must be at most " ++ toString m]
        else []
    | none => []
  typeErrs ++ minErrs ++ maxErrs

/-- The `properties` loop of `MCPTools.validateToolInput`. -/
def propertiesErrors (props : List (String × FieldSchema))
    (input : List (String × JsValue)) : List String :=
  props.flatMap (fun p =>
    match mapGet input p.1 with
    | none => []
    | some value => propertyFieldErrors p.1 p.2 value)

/-- `MCPTools.validateToolInput(toolName, input)`: throws on an unknown
tool, collects required-field and per-property errors, throws when any
were collected, otherwise returns. -/
def validateToolInput (toolName : String)
    (input : List (String × JsValue)) : Except String Unit :=
  match mapGet toolsMap toolName with
  | none => .error ("Unknown tool: " ++ toolName)
  | some tool =>
      let errors :=
        requiredFieldErrors tool.inputSchema.required input ++
          propertiesErrors tool.inputSchema.properties input
      if errors.isEmpty then .ok ()
      else .error ("Validation errors: " ++ String.intercalate ", " errors)

/-- The `switch` of `MCPTools.callTool`, recorded as the sequence of
upstream-client methods it invokes (the arguments flow from `args` and,
for the name-resolution chains, from the previous call's result; the
claims only concern whether the upstream handle is reached, so the
argument values are not tracked). -/
def callToolDispatch (toolName : String) : Except String (List String) :=
  if toolName = "list_user_stories" then .ok ["getUserStories"]
  else if toolName = "get_story_range" then .ok ["getStoryRange"]
  else if toolName = "get_single_story_details" then
    .ok ["getSingleStoryDetails"]
  else if toolName = "get_project_overview" then .ok ["getProjectOverview"]
  else if toolName = "get_persona_profile" then .ok ["getPersonaProfile"]
  else if toolName = "get_user_journey" then .ok ["getUserJourney"]
  else if toolName = "get_jobs_to_be_done" then .ok ["getJobsToBeDone"]
  else if toolName = "get_user_info" then .ok ["getUserInfo"]
  else if toolName = "get_project_environment" then
    .ok ["getProjectEnvironment"]
  else if toolName = "check_nda_status" then .ok ["checkNdaStatus"]
  else if toolName = "get_product_info" then .ok ["getProductInfo"]
  else if toolName = "list_projects" then .ok ["getAllProjects"]
  else if toolName = "find_project_by_name" then .ok ["findProjectByName"]
  else if toolName = "find_persona_by_name" then
    .ok ["resolveProjectId", "findPersonaByName"]
  else if toolName = "get_user_stories_by_name" then
    .ok ["resolveProjectId", "resolvePersonaId", "getUserStories"]
  else if toolName = "get_project_by_name" then .ok ["findProjectByName"]
  else if toolName = "get_persona_by_name" then
    .ok ["resolveProjectId", "resolvePersonaId", "getPersonaProfile"]
  else if toolName = "mcp0_getUserInfo" then .ok ["getUserInfo"]
  else if toolName = "mcp0_fetchPersona" then .ok ["getPersonaProfile"]
  else if toolName = "mcp0_fetchElevatorPitch" then
    .ok ["getProjectOverview"]
  else if toolName = "mcp0_fetchVisionStatement" then
    .ok ["getProjectOverview"]
  else if toolName = "mcp0_fetchProductInfo" then .ok ["getProductInfo"]
  else if toolName = "mcp0_fetchProjectEnvironment" then
    .ok ["getProjectEnvironment"]
  else if toolName = "mcp0_checkNdaStatus" then .ok ["checkNdaStatus"]
  else .error ("Tool " ++ toolName ++ " not implemented")

/-- `MCPTools.callTool(toolName, args, client)`: existence check, then
input validation, then the `authenticate` special case, then the client
presence check, then the dispatch `switch`.  The result is `ok` with the
invoked upstream methods, or `error` with the thrown message; an error
before the dispatch means the upstream handle is never reached. -/
def callTool (toolName : String) (args : List (String × JsValue))
    (clientPresent : Bool) : Except String (List String) :=
  if ¬ hasTools toolName then .error ("Unknown tool: " ++ toolName)
  else
    match validateToolInput toolName args with
    | .error e => .error e
    | .ok _ =>
        if toolName = "authenticate" then
          .error "Authentication should be handled by the server directly"
        else if ¬ clientPresent then .error "Client is required for this tool"
        else callToolDispatch toolName

/-! ## tools/list on the two transports

part_000 `app.post('/sse')` (lines 778–786) and `app.post('/mcp')`
answer `tools/list` with `mcpTools.getToolDescriptorinitions()` unfiltered;
part_002's `app.post('/v1/sse')` (lines 1049–1064) and its
SSE-server `ListToolsRequestSchema` handler (lines 307–319) filter out
the `authenticate` tool first. -/

/-- The tool list returned by `tools/list` on part_000's `/sse` (and
`/mcp`) dispatcher: the full catalog. -/
def ssePostToolsList : List ToolDescriptor :=
  getToolDescriptorinitions

/-- The tool list returned by `tools/list` on part_002's `/v1/sse`
dispatcher and SSE handler:
`allTools.filter(tool => tool.name !== 'authenticate')`. -/
def v1SseToolsList : List ToolDescriptor :=
  getToolDescriptorinitions.filter (fun tool => tool.name ≠ "authenticate")

/-! ## Lemmas about the embedded `Map` operations -/

theorem mapGet_mapSet {α : Type} (m : List (String × α)) (k q : String) (v : α) :
    mapGet (mapSet m k v) q = if k = q then some v else mapGet m q := by
  induction m with
  | nil =>
      by_cases h : k = q <;> simp [mapSet, mapGet, h]
  | cons hd tl ih =>
      obtain ⟨k2, v2⟩ := hd
      by_cases h2 : k2 = k
      · have hset : mapSet ((k2, v2) :: tl) k v = (k, v) :: tl := by
          simp [mapSet, h2]
        rw [hset]
        by_cases h : k = q
        · simp [mapGet, h]
        · have h2q : ¬ k2 = q := fun hh => h (h2.symm.trans hh)
          simp [mapGet, h, h2q]
      · have hset : mapSet ((k2, v2) :: tl) k v = (k2, v2) :: mapSet tl k v := by
          simp [mapSet, h2]
        rw [hset]
        by_cases h : k2 = q
        · have hk : ¬ k = q := fun hh => h2 (h.trans hh.symm)
          simp [mapGet, h, hk]
        · simp [mapGet, h, ih]

theorem mapGet_mapDelete {α : Type} (m : List (String × α)) (k q : String) :
    mapGet (mapDelete m k) q = if k = q then none else mapGet m q := by
  induction m with
  | nil =>
      by_cases h : k = q <;> simp [mapDelete, mapGet, h]
  | cons hd tl ih =>
      obtain ⟨k2, v2⟩ := hd
      by_cases h2 : k2 = k
      · have hdel : mapDelete ((k2, v2) :: tl) k = mapDelete tl k := by
          simp [mapDelete, h2]
        rw [hdel, ih]
        by_cases h : k = q
        · simp [h]
        · have h2q : ¬ k2 = q := fun hh => h (h2.symm.trans hh)
          simp [mapGet, h, h2q]
      · have hdel : mapDelete ((k2, v2) :: tl) k = (k2, v2) :: mapDelete tl k := by
          simp [mapDelete, h2]
        rw [hdel]
        by_cases h : k2 = q
        · have hk : ¬ k = q := fun hh => h2 (h.trans hh.symm)
          simp [mapGet, h, hk]
        · simp [mapGet, h, ih]

/-! ## Claims -/

/-- C1.  The claim reads: for every pair of distinct authenticated users
issuing tools/call requests, the session key under which each request's
upstream handle is stored always incorporates that request's verified
user id; in particular two different users authenticating over the
streamed `/sse` transport must not be mapped to one shared session
identifier.  The code violates this: part_000's `/sse` `authenticate`
branch stores every user's handle under the literal key `'mcp-default'`.
Concretely, after a first user (credential `"tokA"`) and then a second
user (credential `"tokB"`) both authenticate successfully, both are
announced the same session id `'mcp-default'`, and the first user's
subsequent `tools/call` (no session header) resolves the second user's
upstream handle. -/
theorem c1_sse_shared_session_key_collision :
    (ssePostAuthenticate (some "tokA") (.ok true) 1 ⟨[], []⟩).1 =
        some sseMcpSessionId ∧
    (ssePostAuthenticate (some "tokB") (.ok true) 2
        (ssePostAuthenticate (some "tokA") (.ok true) 1 ⟨[], []⟩).2).1 =
        some sseMcpSessionId ∧
    (getClient 3 (some (ssePostToolsCallSessionId none))
        (ssePostAuthenticate (some "tokB") (.ok true) 2
          (ssePostAuthenticate (some "tokA") (.ok true) 1 ⟨[], []⟩).2).2).1 =
        some ⟨"tokB"⟩ ∧
    (⟨"tokB"⟩ : RezoomexApiClient) ≠ ⟨"tokA"⟩ := by
  refine ⟨rfl, rfl, rfl, by decide⟩

/-- C2.  The claim reads: for every authorization code whose stored
bearer credential no longer passes the token liveness check at
redemption time, `POST /token` with `grant_type=authorization_code`
rejects the exchange with an InvalidGrant error instead of returning the
credential.  The code violates this: the `/token` handler Express
actually serves (the first registration, `tokenHandlerFirst`) takes no
liveness oracle at all — it never calls `verifyToken` — and answers
success even when the stored credential is stale; only the unreachable
second registration (`tokenHandlerSecond`) implements the re-validation
and answers `invalid_grant` at the same input (liveness oracle
constantly false). -/
theorem c2_token_exchange_skips_revalidation :
    (tokenHandlerFirst "authorization_code" (some "abc")
        (authenticateStoreCode "abc" "staletok" [])).1 =
      TokenResult.success JsValue.jundefined ∧
    (tokenHandlerFirst "authorization_code" (some "abc")
        (authenticateStoreCode "abc" "staletok" [])).1 ≠
      TokenResult.invalidGrant ∧
    (tokenHandlerSecond "authorization_code" (some "abc") (some "rzmx")
        (fun _ => false) (authenticateStoreCode "abc" "staletok" [])).1 =
      TokenResult.invalidGrant := by
  refine ⟨rfl, by decide, rfl⟩

/-- C3.  For every issued authorization code, the first redemption with
`grant_type=authorization_code` succeeds and deletes the stored record,
and every redemption against a store that no longer holds the code
(in particular every subsequent attempt with the same code) fails with
`invalid_grant` and leaves the store unchanged. -/
theorem c3_redeem_once (store : List (String × JsValue)) (c tok : String)
    (hc : c ≠ "") (htok : tok ≠ "")
    (h : mapGet store ("auth_code:" ++ c) = some (JsValue.jstr tok)) :
    (∃ v, (tokenHandlerFirst "authorization_code" (some c) store).1 =
        TokenResult.success v) ∧
    (tokenHandlerFirst "authorization_code" (some c) store).2 =
      mapDelete store ("auth_code:" ++ c) ∧
    mapGet (tokenHandlerFirst "authorization_code" (some c) store).2
        ("auth_code:" ++ c) = none ∧
    (∀ store2, mapGet store2 ("auth_code:" ++ c) = none →
      tokenHandlerFirst "authorization_code" (some c) store2 =
        (TokenResult.invalidGrant, store2)) := by
  have hmain : tokenHandlerFirst "authorization_code" (some c) store =
      (TokenResult.success (getProp (JsValue.jstr tok) "access_token"),
        mapDelete store ("auth_code:" ++ c)) := by
    simp [tokenHandlerFirst, hc, h, jsTruthy, htok]
  refine ⟨⟨getProp (JsValue.jstr tok) "access_token", by rw [hmain]⟩,
    by rw [hmain], ?_, ?_⟩
  · rw [hmain]
    simp [mapGet_mapDelete]
  · intro store2 h2
    simp [tokenHandlerFirst, hc, h2]

/-- Witness for C3 at a concrete store: code `"abc"`, credential
`"tok"`. -/
theorem c3_redeem_once_witness :
    (∃ v, (tokenHandlerFirst "authorization_code" (some "abc")
        (authenticateStoreCode "abc" "tok" [])).1 =
        TokenResult.success v) ∧
    (tokenHandlerFirst "authorization_code" (some "abc")
        (authenticateStoreCode "abc" "tok" [])).2 =
      mapDelete (authenticateStoreCode "abc" "tok" []) ("auth_code:" ++ "abc") ∧
    mapGet (tokenHandlerFirst "authorization_code" (some "abc")
        (authenticateStoreCode "abc" "tok" [])).2 ("auth_code:" ++ "abc") =
      none ∧
    (∀ store2, mapGet store2 ("auth_code:" ++ "abc") = none →
      tokenHandlerFirst "authorization_code" (some "abc") store2 =
        (TokenResult.invalidGrant, store2)) :=
  c3_redeem_once (authenticateStoreCode "abc" "tok" []) "abc" "tok"
    (by decide) (by decide) (by rfl)

/-- C4.  The claim reads: after a successful credential-form
authentication that minted an authorization code, `POST /token` with
that code returns a body whose `access_token` equals the stored bearer
credential.  The code violates this: `/authenticate` stores the
credential **string** under `auth_code:` ++ code, and the served
`/token` handler answers `access_token: authCode.access_token` — a
property access on that string — so the field is `undefined`, not the
credential (the unreachable second `/token` registration would have
returned the stored string itself). -/
theorem c4_token_exchange_returns_undefined_access_token :
    tokenHandlerFirst "authorization_code" (some "abc")
        (authenticateStoreCode "abc" "tok123" []) =
      (TokenResult.success JsValue.jundefined, []) ∧
    JsValue.jundefined ≠ JsValue.jstr "tok123" := by
  refine ⟨rfl, by decide⟩

/-- C5, counterexample.  The claim reads: `get(sessionId)` returns
absent for a session whose `createdAt` is older than the session TTL,
even before the periodic expiry sweep has run.  The code violates this:
`AuthManager.getClient` performs no expiry check, so for a session
created at time 0 and read at time `sessionTimeoutDefault + 1` (one
millisecond past the 24-hour TTL, sweep not yet run) it returns the
stored handle, not absent. -/
theorem c5_get_returns_expired_session :
    sessionTimeoutDefault + 1 - 0 > sessionTimeoutDefault ∧
    (getClient (sessionTimeoutDefault + 1) (some "s")
        ⟨[("s", 0)], [("s", ⟨"tok"⟩)]⟩).1 = some ⟨"tok"⟩ ∧
    (getClient (sessionTimeoutDefault + 1) (some "s")
        ⟨[("s", 0)], [("s", ⟨"tok"⟩)]⟩).1 ≠ none := by
  refine ⟨by simp, rfl, by simp [getClient, mapGet]⟩

/-- C5, amended.  `getClient` returns absent exactly for a missing
session id, the empty session id, or a sessionId with no stored client;
for a stored sessionId it returns the handle — regardless of the age of
`createdAt` — and refreshes the session's `createdAt` to the current
time.  Expired sessions are removed only by the periodic
`cleanupExpiredSessions` sweep. -/
theorem c5_amended_get_absent_only_for_unknown (now : Nat) (sid : String)
    (st : AMState) :
    getClient now none st = (none, st) ∧
    (mapGet st.clients sid = none → getClient now (some sid) st = (none, st)) ∧
    (∀ c, mapGet st.clients sid = some c → sid ≠ "" →
      (getClient now (some sid) st).1 = some c ∧
      mapGet (getClient now (some sid) st).2.sessions sid = some now ∧
      (getClient now (some sid) st).2.clients = st.clients) := by
  refine ⟨rfl, ?_, ?_⟩
  · intro h
    by_cases hs : sid = ""
    · simp [getClient, hs]
    · simp [getClient, hs, h]
  · intro c h hs
    simp [getClient, hs, h, mapGet_mapSet]

/-- Witness for C5's amended claim at a concrete registry. -/
theorem c5_amended_witness :
    (getClient 5 (some "s") ⟨[("s", 0)], [("s", ⟨"tok"⟩)]⟩).1 =
      some ⟨"tok"⟩ ∧
    mapGet (getClient 5 (some "s")
        ⟨[("s", 0)], [("s", ⟨"tok"⟩)]⟩).2.sessions "s" = some 5 ∧
    (getClient 5 (some "s") ⟨[("s", 0)], [("s", ⟨"tok"⟩)]⟩).2.clients =
      [("s", ⟨"tok"⟩)] :=
  (c5_amended_get_absent_only_for_unknown 5 "s"
      ⟨[("s", 0)], [("s", ⟨"tok"⟩)]⟩).2.2 ⟨"tok"⟩ (by rfl) (by decide)

/-- C6.  For every bearer credential whose upstream validation fails
(`validateSession` resolves false) or whose validation call throws,
`authenticateWithToken` returns `null` and leaves the registry exactly
as it was: no `sessions` or `clients` entry is added for the attempted
sessionId. -/
theorem c6_failed_validation_leaves_registry_unchanged
    (vres : ValidationResult) (bearerToken sessionId : String) (now : Nat)
    (st : AMState) (h : vres ≠ .ok true) :
    authenticateWithToken vres bearerToken sessionId now st = (none, st) := by
  cases vres with
  | ok b =>
      cases b with
      | true => exact absurd rfl h
      | false => rfl
  | err => rfl

/-- Witness for C6: a throwing validation call at an empty registry. -/
theorem c6_witness :
    authenticateWithToken ValidationResult.err "tok" "s" 7 ⟨[], []⟩ =
      (none, ⟨[], []⟩) :=
  c6_failed_validation_leaves_registry_unchanged ValidationResult.err
    "tok" "s" 7 ⟨[], []⟩ (by decide)

/-- C7.  Argument validation runs before any upstream operation: when
`validateToolInput` rejects the arguments (including the unknown-tool
case), `callTool` propagates exactly that error and never produces an
upstream invocation, so the upstream handle is not reached. -/
theorem c7_validation_failure_never_reaches_upstream (toolName : String)
    (args : List (String × JsValue)) (clientPresent : Bool) (e : String)
    (h : validateToolInput toolName args = .error e) :
    callTool toolName args clientPresent = .error e := by
  unfold callTool hasTools
  cases hm : mapGet toolsMap toolName with
  | none =>
      unfold validateToolInput at h
      rw [hm] at h
      simp only [Option.isSome_none, Bool.not_false, if_true]
      simpa using h
  | some tool =>
      simp [hm, h]

/-- Witness for C7: `get_project_overview` called without the required
`project_id` is rejected by validation and never dispatched. -/
theorem c7_witness :
    callTool "get_project_overview" [] true =
      Except.error "Validation errors: Missing required field: project_id" :=
  c7_validation_failure_never_reaches_upstream "get_project_overview" [] true
    "Validation errors: Missing required field: project_id" (by rfl)

/-- C8, counterexample.  The claim reads: on either transport
`tools/list` returns the Tool Catalog minus the authentication tool,
count = catalog size − 1.  The code violates this on part_000's `/sse`
(and `/mcp`) dispatcher: its `tools/list` answer is the unfiltered
catalog — it contains `authenticate` and has the full catalog's
count. -/
theorem c8_sse_tools_list_unfiltered :
    ssePostToolsList ≠
      getToolDescriptorinitions.filter (fun t => t.name ≠ "authenticate") ∧
    ssePostToolsList.length = getToolDescriptorinitions.length ∧
    "authenticate" ∈ ssePostToolsList.map ToolDescriptor.name := by
  decide

/-- C8, amended: part_002's `/v1/sse` dispatcher (and its SSE-server
handler) returns the catalog minus exactly the `authenticate` tool, so
its count is the catalog size minus one; part_000's `/sse` and `/mcp`
dispatcher returns the full catalog, `authenticate` included, with count
equal to the catalog size. -/
theorem c8_amended_tools_list_filtering :
    v1SseToolsList.length + 1 = getToolDescriptorinitions.length ∧
    (∀ t ∈ v1SseToolsList, t.name ≠ "authenticate") ∧
    (∀ t ∈ getToolDescriptorinitions, t.name = "authenticate" ∨ t ∈ v1SseToolsList) ∧
    ssePostToolsList = getToolDescriptorinitions := by
  decide

/-- C9.  A `PendingAuthorization` minted at `t0` with the default
300 000 ms TTL (the `setTimeout`-scheduled deletion of the `auth_code:`
entry) still redeems successfully at `t0 + 299 000` ms and fails with
`invalid_grant` at `t0 + 301 000` ms, for every mint time `t0`. -/
theorem c9_auth_code_expiry_boundaries (c tok : String) (t0 : Nat)
    (hc : c ≠ "") (htok : tok ≠ "") :
    (∃ v, (tokenHandlerFirst "authorization_code" (some c)
        (authCodeStoreAt c tok t0 (t0 + 299000))).1 =
        TokenResult.success v) ∧
    (tokenHandlerFirst "authorization_code" (some c)
        (authCodeStoreAt c tok t0 (t0 + 301000))).1 =
      TokenResult.invalidGrant := by
  have hcond1 : t0 ≤ t0 + 299000 ∧ t0 + 299000 < t0 + oauthSessionTimeout := by
    unfold oauthSessionTimeout
    omega
  have h1 : authCodeStoreAt c tok t0 (t0 + 299000) =
      [("auth_code:" ++ c, JsValue.jstr tok)] := by
    unfold authCodeStoreAt
    rw [if_pos hcond1]
    rfl
  have hcond2 : ¬ (t0 ≤ t0 + 301000 ∧ t0 + 301000 < t0 + oauthSessionTimeout) := by
    unfold oauthSessionTimeout
    omega
  have h2 : authCodeStoreAt c tok t0 (t0 + 301000) = [] := by
    unfold authCodeStoreAt
    rw [if_neg hcond2]
  constructor
  · refine ⟨getProp (JsValue.jstr tok) "access_token", ?_⟩
    rw [h1]
    simp [tokenHandlerFirst, hc, mapGet, jsTruthy, htok]
  · rw [h2]
    simp [tokenHandlerFirst, hc, mapGet]

/-- Witness for C9 at code `"abc"`, credential `"tok"`, mint time 0. -/
theorem c9_witness :
    (∃ v, (tokenHandlerFirst "authorization_code" (some "abc")
        (authCodeStoreAt "abc" "tok" 0 (0 + 299000))).1 =
        TokenResult.success v) ∧
    (tokenHandlerFirst "authorization_code" (some "abc")
        (authCodeStoreAt "abc" "tok" 0 (0 + 301000))).1 =
      TokenResult.invalidGrant :=
  c9_auth_code_expiry_boundaries "abc" "tok" 0 (by decide) (by decide)

/-- `clearSession` preserves the key-set agreement of the two maps:
under the invariant both maps hold the key or neither does, so the
handler deletes from both or touches neither. -/
theorem amInv_clearSession (sid : String) (st : AMState) (h : amInv st) :
    amInv (clearSession sid st) := by
  cases hcm : mapGet st.clients sid with
  | some c =>
      have hs : (mapGet st.sessions sid).isSome := (h sid).mpr (by simp [hcm])
      cases hsm : mapGet st.sessions sid with
      | none => rw [hsm] at hs; simp at hs
      | some s =>
          have heq : clearSession sid st =
              ⟨mapDelete st.sessions sid, mapDelete st.clients sid⟩ := by
            simp [clearSession, hcm, hsm]
          rw [heq]
          intro k
          by_cases hk : sid = k
          · simp [mapGet_mapDelete, hk]
          · simp [mapGet_mapDelete, hk]
            simpa using h k
  | none =>
      have hs : ¬ (mapGet st.sessions sid).isSome := by
        intro hh
        have hc2 := (h sid).mp hh
        rw [hcm] at hc2
        simp at hc2
      cases hsm : mapGet st.sessions sid with
      | some s => rw [hsm] at hs; simp at hs
      | none =>
          have heq : clearSession sid st = st := by
            simp [clearSession, hcm, hsm]
          rw [heq]
          exact h

/-- The expiry sweep preserves the key-set agreement: each step deletes
one sessionId from both maps or neither. -/
theorem amInv_cleanupExpiredSessions (now timeout : Nat) (st : AMState)
    (h : amInv st) : amInv (cleanupExpiredSessions now timeout st) := by
  unfold cleanupExpiredSessions
  have main : ∀ (l : List (String × Nat)) (acc : AMState), amInv acc →
      amInv (List.foldl
        (fun acc p =>
          if now - p.2 > timeout then
            { sessions := mapDelete acc.sessions p.1,
              clients := mapDelete acc.clients p.1 }
          else acc)
        acc l) := by
    intro l
    induction l with
    | nil =>
        intro acc hacc
        simpa using hacc
    | cons hd tl ih =>
        intro acc hacc
        simp only [List.foldl_cons]
        apply ih
        by_cases hcond : now - hd.2 > timeout
        · rw [if_pos hcond]
          intro k
          by_cases hk : hd.1 = k
          · simp [mapGet_mapDelete, hk]
          · simp [mapGet_mapDelete, hk]
            simpa using hacc k
        · rw [if_neg hcond]
          exact hacc
  exact main st.sessions st h

/-- `validateAllSessions` preserves the key-set agreement: it only ever
applies `clearSession`. -/
theorem amInv_validateAllSessions (vres : String → ValidationResult)
    (st : AMState) (h : amInv st) : amInv (validateAllSessions vres st) := by
  unfold validateAllSessions
  have main : ∀ (l : List (String × RezoomexApiClient)) (acc : AMState),
      amInv acc →
      amInv (List.foldl
        (fun acc p =>
          match vres p.1 with
          | .ok true => acc
          | .ok false => clearSession p.1 acc
          | .err => clearSession p.1 acc)
        acc l) := by
    intro l
    induction l with
    | nil =>
        intro acc hacc
        simpa using hacc
    | cons hd tl ih =>
        intro acc hacc
        simp only [List.foldl_cons]
        apply ih
        cases hv : vres hd.1 with
        | ok b =>
            cases b with
            | true => simpa [hv] using hacc
            | false =>
                simp only [hv]
                exact amInv_clearSession hd.1 acc hacc
        | err =>
            simp only [hv]
            exact amInv_clearSession hd.1 acc hacc
  exact main st.clients st h

/-- C10.  Every `AuthManager` operation preserves the invariant that
the key set of `sessions` equals the key set of `clients`: a session
metadata entry exists iff a client handle is stored under the same
sessionId. -/
theorem c10_session_client_key_sets_agree (st : AMState) (h : amInv st)
    (vres : ValidationResult) (bearerToken sid : String) (now timeout : Nat)
    (vorc : String → ValidationResult) (hdr : Option String) :
    amInv (authenticateWithToken vres bearerToken sid now st).2 ∧
    amInv (getClient now hdr st).2 ∧
    amInv (clearSession sid st) ∧
    amInv (cleanupExpiredSessions now timeout st) ∧
    amInv (validateAllSessions vorc st) ∧
    amInv (amCleanup st) := by
  refine ⟨?_, ?_, amInv_clearSession sid st h,
    amInv_cleanupExpiredSessions now timeout st h,
    amInv_validateAllSessions vorc st h, ?_⟩
  · cases vres with
    | ok b =>
        cases b with
        | true =>
            intro k
            simp only [authenticateWithToken]
            simp [mapGet_mapSet]
            by_cases hk : sid = k
            · simp [hk]
            · simp [hk]
              simpa using h k
        | false => simpa [authenticateWithToken] using h
    | err => simpa [authenticateWithToken] using h
  · cases hdr with
    | none => simpa [getClient] using h
    | some sid2 =>
        by_cases hs : sid2 = ""
        · simpa [getClient, hs] using h
        · cases hm : mapGet st.clients sid2 with
          | none => simpa [getClient, hs, hm] using h
          | some c =>
              intro k
              simp [getClient, hs, hm, mapGet_mapSet]
              by_cases hk : sid2 = k
              · subst hk
                simp [hm]
              · simp [hk]
                simpa using h k
  · intro k
    simp [amCleanup, mapGet]

/-- Witness for C10 at the empty registry, exercising a successful
authentication. -/
theorem c10_witness :
    amInv (authenticateWithToken (ValidationResult.ok true) "tok" "s" 1
      ⟨[], []⟩).2 :=
  (c10_session_client_key_sets_agree ⟨[], []⟩ (fun _ => Iff.rfl)
    (ValidationResult.ok true) "tok" "s" 1 0 (fun _ => ValidationResult.err)
    none).1
